import Mathlib

/-!
Shallow embedding of the keras-tuner-alpha model-adaptation core:
the autoregressive generation loop `Model._generate` and `set_precision`
from `keras_tuner/model/model.py`, and the parameter-mapping /
tensor-transformation engine from
`kithara/model/maxtext/ckpt_compatibility/param_mapping.py`.

Numeric tensor entries are embedded as exact rationals (the float32
constants `sqrt(head_dim)`, `1/sqrt(head_dim)` and `sqrt(hidden_size)`
computed by numpy are dyadic rationals, taken here as parameters), token
ids and logits as integers. Fallible numpy operations (reshape with a
mismatched element count, out-of-range Python list assignment) are
embedded in `Option`/`Except`.
-/

/-- Python slice endpoint normalisation: a negative endpoint counts from the
end of the list, and endpoints are clamped to the list length. -/
def pyBound (len : Nat) (i : Int) : Nat :=
  if i < 0 then (max 0 (i + len)).toNat else min i.toNat len

/-- Python list slicing `l[a:b]`. -/
def pySlice (l : List α) (a b : Int) : List α :=
  (l.take (pyBound l.length b)).drop (pyBound l.length a)

/-- Decidable equality of `Except` results, for evaluating the embedded
fallible operations on concrete inputs. -/
instance {ε α : Type} [DecidableEq ε] [DecidableEq α] :
    DecidableEq (Except ε α) := fun a b =>
  match a, b with
  | .error e1, .error e2 =>
    if h : e1 = e2 then .isTrue (congrArg Except.error h)
    else .isFalse (fun hc => h ((Except.error.injEq _ _).mp hc))
  | .ok v1, .ok v2 =>
    if h : v1 = v2 then .isTrue (congrArg Except.ok h)
    else .isFalse (fun hc => h ((Except.ok.injEq _ _).mp hc))
  | .error _, .ok _ => .isFalse (fun hc => Except.noConfusion hc)
  | .ok _, .error _ => .isFalse (fun hc => Except.noConfusion hc)

/-- numpy integer indexing with Python negative-index semantics; an
out-of-range index yields the default (the embedded call sites only index in
range for well-shaped model outputs). -/
def npGetD (l : List α) (i : Int) (dflt : α) : α :=
  let j : Int := if i < 0 then i + l.length else i
  if 0 ≤ j ∧ j < l.length then l.getD j.toNat dflt else dflt

/-- numpy `np.roll(row, 1)` along one axis: every element moves one slot to
the right and the last element wraps around to the front. -/
def npRoll (l : List α) : List α :=
  match l.getLast? with
  | none => []
  | some x => x :: l.dropLast

/-- Auxiliary scan for `argmax`: tracks the index of the first maximum. -/
def argmaxAux : List Int → Nat → Nat → Int → Nat
  | [], _, best, _ => best
  | x :: xs, i, best, bestVal =>
    if bestVal < x then argmaxAux xs (i + 1) i x
    else argmaxAux xs (i + 1) best bestVal

/-- Index of the first maximal element, as numpy / `keras.ops.argmax`
computes it along the vocabulary axis. -/
def argmax : List Int → Int
  | [] => 0
  | x :: xs => (argmaxAux xs 1 0 x : Nat)

/-- Python `range(start, stop, step)` for a positive `step`. -/
def rangeStep (start stop step : Nat) : List Nat :=
  (List.range ((stop - start + step - 1) / step)).map (fun k => start + step * k)

/-- The two arrays of the `inputs` dictionary consumed by `Model._generate`
(`token_ids` and `padding_mask`), each of shape batch × seq_len. -/
structure GenInputs where
  token_ids : List (List Int)
  padding_mask : List (List Int)
  deriving DecidableEq

/-- Runtime errors of the generation loop; `indexError` is the Python
`IndexError` raised by `reached_eos[i] = True` when `i` is out of range. -/
inductive GenError where
  | indexError
  deriving DecidableEq

/-- Mutable state of the decode loop of `Model._generate`: the token and
segment-id buffers, the position cursor, the per-sequence EOS flags, and an
iteration counter recording how many loop bodies ran. -/
structure LoopState where
  tokens : List (List Int)
  segment_ids : List (List Int)
  num_tokens : Nat
  reached_eos : List Bool
  stepsRun : Nat
  deriving DecidableEq

/-- The per-step EOS bookkeeping of `Model._generate` (model.py lines
217-219): `for i, token in enumerate(next_tokens): if token in
stop_token_ids: reached_eos[i] = True`. Python list assignment raises
`IndexError` when `i` is not below the list length. -/
def eosUpdate (stop_token_ids : List Int) :
    List Int → Nat → List Bool → Except GenError (List Bool)
  | [], _, reached => .ok reached
  | t :: ts, i, reached =>
    if t ∈ stop_token_ids then
      if i < reached.length then
        eosUpdate stop_token_ids ts (i + 1) (reached.set i true)
      else .error .indexError
    else eosUpdate stop_token_ids ts (i + 1) reached

/-- Lines 195-204 of model.py: rebuild `current_inputs`, invoke the jitted
forward step (`model` abstracts it; it returns logits of shape
batch × seq × vocab), extract the logits at the cursor position and take the
per-sequence argmax over the vocabulary axis. -/
def nextTokensOf (model : GenInputs → List (List (List Int)))
    (st : LoopState) : List Int :=
  let current_inputs : GenInputs := ⟨st.tokens, st.segment_ids⟩
  let logits := model current_inputs
  let next_token_logits :=
    logits.map (fun row => npGetD row ((st.num_tokens : Int) - 1) [])
  next_token_logits.map argmax

/-- Lines 206-214 of model.py: write the predicted tokens into the token
buffer at the cursor column, roll the segment-id mask right by one and set
its first column to 1, and advance the cursor. -/
def stepState (st : LoopState) (next_tokens : List Int)
    (reached : List Bool) : LoopState :=
  ⟨List.zipWith (fun row t => row.set st.num_tokens t) st.tokens next_tokens,
   st.segment_ids.map (fun row => (npRoll row).set 0 1),
   st.num_tokens + 1, reached, st.stepsRun + 1⟩

/-- The decode loop of `Model._generate` (model.py lines 194-222), iterated
up to `generate_steps` times with early exit once every tracked sequence has
reached EOS. -/
def stepLoop (model : GenInputs → List (List (List Int)))
    (stop_token_ids : List Int) :
    Nat → LoopState → Except GenError LoopState
  | 0, st => .ok st
  | fuel + 1, st =>
    match eosUpdate stop_token_ids (nextTokensOf model st) 0 st.reached_eos with
    | .error e => .error e
    | .ok reached =>
      if reached.all (fun b => b) then
        .ok (stepState st (nextTokensOf model st) reached)
      else
        stepLoop model stop_token_ids fuel
          (stepState st (nextTokensOf model st) reached)

/-- The batch-padding block of `Model._generate` (model.py lines 156-168):
when the batch size is not a multiple of the data-parallel shard count, every
entry of the `inputs` dictionary is padded along axis 0 with constant-zero
rows up to the next multiple. -/
def paddedInputs (devices_in_data_fsdp : Nat) (inputs : GenInputs) : GenInputs :=
  let batch_size := inputs.token_ids.length
  let remainder := batch_size % devices_in_data_fsdp
  let pad_size := if remainder = 0 then 0 else devices_in_data_fsdp - remainder
  ⟨inputs.token_ids ++
      List.replicate pad_size (List.replicate (inputs.token_ids.headD []).length 0),
   inputs.padding_mask ++
      List.replicate pad_size (List.replicate (inputs.padding_mask.headD []).length 0)⟩

/-- `num_tokens = int(np.sum(segment_ids[0] == 1))` (model.py line 185). -/
def initialNumTokens (segment_ids : List (List Int)) : Nat :=
  (segment_ids.headD []).countP (fun v => v == 1)

/-- `seq_len = segment_ids.shape[1]` (model.py line 186). -/
def seqLen (segment_ids : List (List Int)) : Nat :=
  (segment_ids.headD []).length

/-- `generate_steps = min(seq_len - num_tokens, max_length - num_tokens)`
(model.py line 189), computed on the padded mask. -/
def generateStepsOf (padded_mask : List (List Int)) (max_length : Int) : Int :=
  min ((seqLen padded_mask : Int) - (initialNumTokens padded_mask : Int))
    (max_length - (initialNumTokens padded_mask : Int))

/-- The loop state entering the first decode step: the padded buffers, the
initial cursor and `reached_eos = [False for _ in range(batch_size)]`
(model.py line 192), where `batch_size` is the UNPADDED batch size captured
at line 154. -/
def initLoopState (padded : GenInputs) (batch_size : Nat) : LoopState :=
  ⟨padded.token_ids, padded.padding_mask,
   initialNumTokens padded.padding_mask,
   List.replicate batch_size false, 0⟩

/-- Observable outcome of a successful `Model._generate` call: the returned
dictionary (`padding_mask`, `token_ids`), the content of the caller's
`inputs` dictionary on return (its token entry aliases the in-place mutated
token buffer; its mask entry is the padded mask, which the loop never writes
since `np.roll` allocates a fresh array), the final segment-id buffer, and
the engine-internal quantities the spec discusses. -/
structure GenTrace where
  padding_mask : List (List Int)
  token_ids : List (List Int)
  finalInputs : GenInputs
  final_segment_ids : List (List Int)
  numTokens0 : Nat
  generate_steps : Int
  stepsRun : Nat
  num_tokens_final : Nat
  deriving DecidableEq

/-- `Model._generate` from `keras_tuner/model/model.py` (lines 117-234).
`devices_in_data_fsdp` is the data-parallel shard count read from the mesh;
`model` abstracts the jitted forward step; `jax.device_put` is a no-op on
values. Note that the `strip_prompt` branch (lines 227-229) slices the
`tokens` array for BOTH returned entries, exactly as the source does. -/
def Model_generate (devices_in_data_fsdp : Nat)
    (model : GenInputs → List (List (List Int)))
    (inputs : GenInputs) (max_length : Int) (stop_token_ids : List Int)
    (strip_prompt : Bool) : Except GenError GenTrace :=
  let batch_size := inputs.token_ids.length
  let padded := paddedInputs devices_in_data_fsdp inputs
  let generate_steps : Int := generateStepsOf padded.padding_mask max_length
  match stepLoop model stop_token_ids generate_steps.toNat
      (initLoopState padded batch_size) with
  | .error e => .error e
  | .ok st =>
    let token_ids :=
      if strip_prompt then
        (st.tokens.take batch_size).map
          (fun r => pySlice r ((st.num_tokens : Int) - generate_steps) st.num_tokens)
      else (st.tokens.take batch_size).map (fun r => r.take st.num_tokens)
    let padding_mask :=
      if strip_prompt then
        (st.tokens.take batch_size).map
          (fun r => pySlice r ((st.num_tokens : Int) - generate_steps) st.num_tokens)
      else (st.segment_ids.take batch_size).map (fun r => r.take st.num_tokens)
    .ok ⟨padding_mask, token_ids, ⟨st.tokens, padded.padding_mask⟩,
         st.segment_ids, initialNumTokens padded.padding_mask, generate_steps,
         st.stepsRun, st.num_tokens⟩

/-- Errors of `set_precision`: `configConflict` models the `assert` at
model.py lines 261-269, `unsupportedCombination` the `ValueError` at 279. -/
inductive PrecisionError where
  | configConflict
  | unsupportedCombination
  deriving DecidableEq

def float32 : String := "float32"

def float16 : String := "float16"

def bfloat16 : String := "bfloat16"

def mixed_float16 : String := "mixed_float16"

def mixed_bfloat16 : String := "mixed_bfloat16"

/-- `set_precision` from `keras_tuner/model/model.py` (lines 236-287). The
call to `keras.mixed_precision.set_global_policy` is an external side effect;
the embedding returns the policy string that would be set. -/
def set_precision (precision weight_dtype activation_dtype : Option String) :
    Except PrecisionError String :=
  if ¬ ((precision = none ∧ weight_dtype ≠ none ∧ activation_dtype ≠ none) ∨
        (precision ≠ none ∧ weight_dtype = none ∧ activation_dtype = none)) then
    .error .configConflict
  else
    match precision with
    | some p => .ok p
    | none =>
      if weight_dtype = activation_dtype then .ok (weight_dtype.getD "")
      else if weight_dtype = some float32 ∧ activation_dtype = some float16 then
        .ok mixed_float16
      else if weight_dtype = some float32 ∧ activation_dtype = some bfloat16 then
        .ok mixed_bfloat16
      else .error .unsupportedCombination

/-- Row-major multi-index of the flat index `i` in a tensor of the given
shape. -/
def toMulti : List Nat → Nat → List Nat
  | [], _ => []
  | _ :: ds, i => i / ds.prod :: toMulti ds (i % ds.prod)

/-- Row-major flat index of a multi-index. -/
def fromMulti : List Nat → List Nat → Nat
  | _ :: ds, j :: js => j * ds.prod + fromMulti ds js
  | _, _ => 0

/-- Flat-index permutation realising numpy `transpose()` (full axis
reversal): entry `i` of the transposed tensor, whose shape is the reverse of
`s`, is entry `permIdx s i` of the original flat data. -/
def permIdx (s : List Nat) (i : Nat) : Nat :=
  fromMulti s ((toMulti s.reverse i).reverse)

/-- Flat data of the full-axis-reversal transpose of a tensor of shape `s`
with flat data `d`. -/
def transposeData [Inhabited α] (s : List Nat) (d : List α) : List α :=
  (List.range d.length).map (fun i => d.getD (permIdx s i) default)

/-- A numpy array: a shape together with its row-major flat data. -/
structure Tensor (α : Type) where
  shape : List Nat
  data : List α
  deriving DecidableEq

/-- numpy `reshape`: keeps the flat data and fails (numpy `ValueError`) when
the element count does not match the product of the target shape. -/
def Tensor.reshape (t : Tensor α) (s : List Nat) : Option (Tensor α) :=
  if t.data.length = s.prod then some ⟨s, t.data⟩ else none

/-- numpy `transpose()` with no axes argument: reverses all axes. -/
def Tensor.transpose [Inhabited α] (t : Tensor α) : Tensor α :=
  ⟨t.shape.reverse, transposeData t.shape t.data⟩

/-- `reshape_kernel` from param_mapping.py (lines 227-238 and 490-501):
saving to HF reshapes to the flipped target shape and then transposes all
axes; loading transposes and then reshapes to the target shape. -/
def reshape_kernel [Inhabited α] (saving_to_hf : Bool) (input_tensor : Tensor α)
    (target_shape : List Nat) : Option (Tensor α) :=
  if saving_to_hf then
    (input_tensor.reshape target_shape.reverse).map Tensor.transpose
  else
    input_tensor.transpose.reshape target_shape

/-- `scale_rmsnorm_layer` from param_mapping.py (lines 240-250): saving to HF
subtracts 1.0 and reshapes; loading adds 1.0 and reshapes. -/
def scale_rmsnorm_layer (saving_to_hf : Bool) (input_tensor : Tensor ℚ)
    (target_shape : List Nat) : Option (Tensor ℚ) :=
  if saving_to_hf then
    Tensor.reshape ⟨input_tensor.shape, input_tensor.data.map (fun v => v - 1)⟩ target_shape
  else
    Tensor.reshape ⟨input_tensor.shape, input_tensor.data.map (fun v => v + 1)⟩ target_shape

/-- `scale_query_layer` from param_mapping.py (lines 252-264): multiplies by
the float32 value of `np.sqrt(head_dim)` (the parameter `sqrt_head_dim`) or
of `1/np.sqrt(head_dim)` (`inv_sqrt_head_dim`); the `astype` cast is the
identity in this exact-arithmetic embedding. The target shape is never
consulted and the function never fails. -/
def scale_query_layer (sqrt_head_dim inv_sqrt_head_dim : ℚ) (saving_to_hf : Bool)
    (input_tensor : Tensor ℚ) (target_shape : List Nat) : Tensor ℚ :=
  let _ := target_shape
  if saving_to_hf then
    ⟨input_tensor.shape, input_tensor.data.map (fun v => v * sqrt_head_dim)⟩
  else
    ⟨input_tensor.shape, input_tensor.data.map (fun v => v * inv_sqrt_head_dim)⟩

/-- `pad_hf_embedding_layer` from param_mapping.py (lines 197-225) in the
`saving_to_hf` direction: crops to the first `target_shape` rows and columns
and divides by the float32 value of `sqrt(hidden_size)` (`normalizer`); no
element-count check is made. -/
def pad_hf_embedding_to_hf (normalizer : ℚ) (input_tensor : List (List ℚ))
    (target_shape : Nat × Nat) : List (List ℚ) :=
  (input_tensor.take target_shape.1).map
    (fun row => (row.take target_shape.2).map (fun v => v / normalizer))

/-- `pad_hf_embedding_layer` in the loading direction: a zero buffer of the
target shape with the input copied into the top-left block, multiplied by
`normalizer`; numpy raises a broadcast error when the input exceeds the
target block, embedded as `none`. -/
def pad_hf_embedding_from_hf (normalizer : ℚ) (input_tensor : List (List ℚ))
    (target_shape : Nat × Nat) : Option (List (List ℚ)) :=
  if input_tensor.length ≤ target_shape.1 ∧
      (∀ r ∈ input_tensor, r.length ≤ target_shape.2) then
    some ((List.range target_shape.1).map (fun i =>
      (List.range target_shape.2).map (fun j =>
        ((input_tensor.getD i []).getD j 0) * normalizer)))
  else none

/-- Architecture configuration fields consumed by the mapping and hook
builders (`config["num_hidden_layers"]` etc.). -/
structure Config where
  num_hidden_layers : Nat
  head_dim : Nat
  hidden_size : Nat
  deriving DecidableEq

/-- A mapping-table value: a single HF parameter path, or the ordered
per-layer list used when `scan_layers` is set. -/
inductive MapVal where
  | one (path : String)
  | many (paths : List String)
  deriving DecidableEq

/-- The per-layer dictionary `layer_mapping` built by
`GEMMA2_MAXTEXT_TO_HF_PARAM_MAPPING` when `scan_layers=False`
(param_mapping.py lines 120-146). -/
def gemma2LayerMapping (maxtext_layer_idx : Nat) : List (String × MapVal) :=
  let local_layer_idx := maxtext_layer_idx * 2
  let global_layer_idx := maxtext_layer_idx * 2 + 1
  [ (s!"params-decoder-layers_{maxtext_layer_idx}-pre_self_attention_norm_global-scale",
      MapVal.one (s!"model.layers.{global_layer_idx}.input_layernorm.weight")),
    (s!"params-decoder-layers_{maxtext_layer_idx}-mlp_global-wo-kernel",
      MapVal.one (s!"model.layers.{global_layer_idx}.mlp.down_proj.weight")),
    (s!"params-decoder-layers_{maxtext_layer_idx}-mlp_global-wi_1-kernel",
      MapVal.one (s!"model.layers.{global_layer_idx}.mlp.up_proj.weight")),
    (s!"params-decoder-layers_{maxtext_layer_idx}-mlp_global-wi_0-kernel",
      MapVal.one (s!"model.layers.{global_layer_idx}.mlp.gate_proj.weight")),
    (s!"params-decoder-layers_{maxtext_layer_idx}-post_self_attention_norm_global-scale",
      MapVal.one (s!"model.layers.{global_layer_idx}.post_attention_layernorm.weight")),
    (s!"params-decoder-layers_{maxtext_layer_idx}-post_ffw_norm_global-scale",
      MapVal.one (s!"model.layers.{global_layer_idx}.post_feedforward_layernorm.weight")),
    (s!"params-decoder-layers_{maxtext_layer_idx}-pre_ffw_norm_global-scale",
      MapVal.one (s!"model.layers.{global_layer_idx}.pre_feedforward_layernorm.weight")),
    (s!"params-decoder-layers_{maxtext_layer_idx}-self_attention_global-key-kernel",
      MapVal.one (s!"model.layers.{global_layer_idx}.self_attn.k_proj.weight")),
    (s!"params-decoder-layers_{maxtext_layer_idx}-self_attention_global-out-kernel",
      MapVal.one (s!"model.layers.{global_layer_idx}.self_attn.o_proj.weight")),
    (s!"params-decoder-layers_{maxtext_layer_idx}-self_attention_global-query-kernel",
      MapVal.one (s!"model.layers.{global_layer_idx}.self_attn.q_proj.weight")),
    (s!"params-decoder-layers_{maxtext_layer_idx}-self_attention_global-value-kernel",
      MapVal.one (s!"model.layers.{global_layer_idx}.self_attn.v_proj.weight")),
    (s!"params-decoder-layers_{maxtext_layer_idx}-pre_self_attention_norm_local-scale",
      MapVal.one (s!"model.layers.{local_layer_idx}.input_layernorm.weight")),
    (s!"params-decoder-layers_{maxtext_layer_idx}-mlp_local-wo-kernel",
      MapVal.one (s!"model.layers.{local_layer_idx}.mlp.down_proj.weight")),
    (s!"params-decoder-layers_{maxtext_layer_idx}-mlp_local-wi_1-kernel",
      MapVal.one (s!"model.layers.{local_layer_idx}.mlp.up_proj.weight")),
    (s!"params-decoder-layers_{maxtext_layer_idx}-mlp_local-wi_0-kernel",
      MapVal.one (s!"model.layers.{local_layer_idx}.mlp.gate_proj.weight")),
    (s!"params-decoder-layers_{maxtext_layer_idx}-post_self_attention_norm_local-scale",
      MapVal.one (s!"model.layers.{local_layer_idx}.post_attention_layernorm.weight")),
    (s!"params-decoder-layers_{maxtext_layer_idx}-post_ffw_norm_local-scale",
      MapVal.one (s!"model.layers.{local_layer_idx}.post_feedforward_layernorm.weight")),
    (s!"params-decoder-layers_{maxtext_layer_idx}-pre_ffw_norm_local-scale",
      MapVal.one (s!"model.layers.{local_layer_idx}.pre_feedforward_layernorm.weight")),
    (s!"params-decoder-layers_{maxtext_layer_idx}-self_attention_local-key-kernel",
      MapVal.one (s!"model.layers.{local_layer_idx}.self_attn.k_proj.weight")),
    (s!"params-decoder-layers_{maxtext_layer_idx}-self_attention_local-out-kernel",
      MapVal.one (s!"model.layers.{local_layer_idx}.self_attn.o_proj.weight")),
    (s!"params-decoder-layers_{maxtext_layer_idx}-self_attention_local-query-kernel",
      MapVal.one (s!"model.layers.{local_layer_idx}.self_attn.q_proj.weight")),
    (s!"params-decoder-layers_{maxtext_layer_idx}-self_attention_local-value-kernel",
      MapVal.one (s!"model.layers.{local_layer_idx}.self_attn.v_proj.weight")) ]

/-- `GEMMA2_MAXTEXT_TO_HF_PARAM_MAPPING` from param_mapping.py (lines 5-148),
as an association list in the source's dictionary insertion order. -/
def GEMMA2_MAXTEXT_TO_HF_PARAM_MAPPING (config : Config) (scan_layers : Bool) :
    List (String × MapVal) :=
  let nlayers := config.num_hidden_layers
  let mapping : List (String × MapVal) :=
    [ ("params-token_embedder-embedding", MapVal.one "model.embed_tokens.weight"),
      ("params-decoder-decoder_norm-scale", MapVal.one "model.norm.weight") ]
  if scan_layers then
    mapping ++
    [ ("params-decoder-layers-pre_self_attention_norm_global-scale",
        MapVal.many ((rangeStep 1 nlayers 2).map
          (fun i => s!"model.layers.{i}.input_layernorm.weight"))),
      ("params-decoder-layers-mlp_global-wo-kernel",
        MapVal.many ((rangeStep 1 nlayers 2).map
          (fun i => s!"model.layers.{i}.mlp.down_proj.weight"))),
      ("params-decoder-layers-mlp_global-wi_1-kernel",
        MapVal.many ((rangeStep 1 nlayers 2).map
          (fun i => s!"model.layers.{i}.mlp.up_proj.weight"))),
      ("params-decoder-layers-mlp_global-wi_0-kernel",
        MapVal.many ((rangeStep 1 nlayers 2).map
          (fun i => s!"model.layers.{i}.mlp.gate_proj.weight"))),
      ("params-decoder-layers-post_self_attention_norm_global-scale",
        MapVal.many ((rangeStep 1 nlayers 2).map
          (fun i => s!"model.layers.{i}.post_attention_layernorm.weight"))),
      ("params-decoder-layers-post_ffw_norm_global-scale",
        MapVal.many ((rangeStep 1 nlayers 2).map
          (fun i => s!"model.layers.{i}.post_feedforward_layernorm.weight"))),
      ("params-decoder-layers-pre_ffw_norm_global-scale",
        MapVal.many ((rangeStep 1 nlayers 2).map
          (fun i => s!"model.layers.{i}.pre_feedforward_layernorm.weight"))),
      ("params-decoder-layers-self_attention_global-key-kernel",
        MapVal.many ((rangeStep 1 nlayers 2).map
          (fun i => s!"model.layers.{i}.self_attn.k_proj.weight"))),
      ("params-decoder-layers-self_attention_global-out-kernel",
        MapVal.many ((rangeStep 1 nlayers 2).map
          (fun i => s!"model.layers.{i}.self_attn.o_proj.weight"))),
      ("params-decoder-layers-self_attention_global-query-kernel",
        MapVal.many ((rangeStep 1 nlayers 2).map
          (fun i => s!"model.layers.{i}.self_attn.q_proj.weight"))),
      ("params-decoder-layers-self_attention_global-value-kernel",
        MapVal.many ((rangeStep 1 nlayers 2).map
          (fun i => s!"model.layers.{i}.self_attn.v_proj.weight"))),
      ("params-decoder-layers-pre_self_attention_norm_local-scale",
        MapVal.many ((rangeStep 0 nlayers 2).map
          (fun i => s!"model.layers.{i}.input_layernorm.weight"))),
      ("params-decoder-layers-mlp_local-wo-kernel",
        MapVal.many ((rangeStep 0 nlayers 2).map
          (fun i => s!"model.layers.{i}.mlp.down_proj.weight"))),
      ("params-decoder-layers-mlp_local-wi_1-kernel",
        MapVal.many ((rangeStep 0 nlayers 2).map
          (fun i => s!"model.layers.{i}.mlp.up_proj.weight"))),
      ("params-decoder-layers-mlp_local-wi_0-kernel",
        MapVal.many ((rangeStep 0 nlayers 2).map
          (fun i => s!"model.layers.{i}.mlp.gate_proj.weight"))),
      ("params-decoder-layers-post_self_attention_norm_local-scale",
        MapVal.many ((rangeStep 0 nlayers 2).map
          (fun i => s!"model.layers.{i}.post_attention_layernorm.weight"))),
      ("params-decoder-layers-post_ffw_norm_local-scale",
        MapVal.many ((rangeStep 0 nlayers 2).map
          (fun i => s!"model.layers.{i}.post_feedforward_layernorm.weight"))),
      ("params-decoder-layers-pre_ffw_norm_local-scale",
        MapVal.many ((rangeStep 0 nlayers 2).map
          (fun i => s!"model.layers.{i}.pre_feedforward_layernorm.weight"))),
      ("params-decoder-layers-self_attention_local-key-kernel",
        MapVal.many ((rangeStep 0 nlayers 2).map
          (fun i => s!"model.layers.{i}.self_attn.k_proj.weight"))),
      ("params-decoder-layers-self_attention_local-out-kernel",
        MapVal.many ((rangeStep 0 nlayers 2).map
          (fun i => s!"model.layers.{i}.self_attn.o_proj.weight"))),
      ("params-decoder-layers-self_attention_local-query-kernel",
        MapVal.many ((rangeStep 0 nlayers 2).map
          (fun i => s!"model.layers.{i}.self_attn.q_proj.weight"))),
      ("params-decoder-layers-self_attention_local-value-kernel",
        MapVal.many ((rangeStep 0 nlayers 2).map
          (fun i => s!"model.layers.{i}.self_attn.v_proj.weight"))) ]
  else
    mapping ++ (List.range (nlayers / 2)).flatMap gemma2LayerMapping

/-- `LLAMA31_MAXTEXT_TO_HF_PARAM_MAPPING` from param_mapping.py (lines
340-448), as an association list in the source's insertion order. -/
def LLAMA31_MAXTEXT_TO_HF_PARAM_MAPPING (config : Config) (scan_layers : Bool) :
    List (String × MapVal) :=
  let n_layers := config.num_hidden_layers
  let mapping : List (String × MapVal) :=
    [ ("max_text_layer/params-token_embedder-embedding",
        MapVal.one "model.embed_tokens.weight"),
      ("max_text_layer/params-decoder-logits_dense-kernel",
        MapVal.one "lm_head.weight"),
      ("max_text_layer/params-decoder-decoder_norm-scale",
        MapVal.one "model.norm.weight") ]
  if scan_layers then
    mapping ++
    [ ("max_text_layer/params-decoder-layers-self_attention-query-kernel",
        MapVal.many ((List.range n_layers).map
          (fun layer_idx => s!"model.layers.{layer_idx}.self_attn.q_proj.weight"))),
      ("max_text_layer/params-decoder-layers-self_attention-key-kernel",
        MapVal.many ((List.range n_layers).map
          (fun layer_idx => s!"model.layers.{layer_idx}.self_attn.k_proj.weight"))),
      ("max_text_layer/params-decoder-layers-self_attention-value-kernel",
        MapVal.many ((List.range n_layers).map
          (fun layer_idx => s!"model.layers.{layer_idx}.self_attn.v_proj.weight"))),
      ("max_text_layer/params-decoder-layers-self_attention-out-kernel",
        MapVal.many ((List.range n_layers).map
          (fun layer_idx => s!"model.layers.{layer_idx}.self_attn.o_proj.weight"))),
      ("max_text_layer/params-decoder-layers-mlp-wi_0-kernel",
        MapVal.many ((List.range n_layers).map
          (fun layer_idx => s!"model.layers.{layer_idx}.mlp.gate_proj.weight"))),
      ("max_text_layer/params-decoder-layers-mlp-wi_1-kernel",
        MapVal.many ((List.range n_layers).map
          (fun layer_idx => s!"model.layers.{layer_idx}.mlp.up_proj.weight"))),
      ("max_text_layer/params-decoder-layers-mlp-wo-kernel",
        MapVal.many ((List.range n_layers).map
          (fun layer_idx => s!"model.layers.{layer_idx}.mlp.down_proj.weight"))),
      ("max_text_layer/params-decoder-layers-pre_self_attention_layer_norm-scale",
        MapVal.many ((List.range n_layers).map
          (fun layer_idx => s!"model.layers.{layer_idx}.input_layernorm.weight"))),
      ("max_text_layer/params-decoder-layers-post_self_attention_layer_norm-scale",
        MapVal.many ((List.range n_layers).map
          (fun layer_idx => s!"model.layers.{layer_idx}.post_attention_layernorm.weight"))) ]
  else
    mapping ++ (List.range n_layers).flatMap (fun layer_idx =>
      [ (s!"max_text_layer/params-decoder-layers_{layer_idx}-self_attention-query-kernel",
          MapVal.one (s!"model.layers.{layer_idx}.self_attn.q_proj.weight")),
        (s!"max_text_layer/params-decoder-layers_{layer_idx}-self_attention-key-kernel",
          MapVal.one (s!"model.layers.{layer_idx}.self_attn.k_proj.weight")),
        (s!"max_text_layer/params-decoder-layers_{layer_idx}-self_attention-value-kernel",
          MapVal.one (s!"model.layers.{layer_idx}.self_attn.v_proj.weight")),
        (s!"max_text_layer/params-decoder-layers_{layer_idx}-self_attention-out-kernel",
          MapVal.one (s!"model.layers.{layer_idx}.self_attn.o_proj.weight")),
        (s!"max_text_layer/params-decoder-layers_{layer_idx}-mlp-wi_0-kernel",
          MapVal.one (s!"model.layers.{layer_idx}.mlp.gate_proj.weight")),
        (s!"max_text_layer/params-decoder-layers_{layer_idx}-mlp-wi_1-kernel",
          MapVal.one (s!"model.layers.{layer_idx}.mlp.up_proj.weight")),
        (s!"max_text_layer/params-decoder-layers_{layer_idx}-mlp-wo-kernel",
          MapVal.one (s!"model.layers.{layer_idx}.mlp.down_proj.weight")),
        (s!"max_text_layer/params-decoder-layers_{layer_idx}-pre_self_attention_layer_norm-scale",
          MapVal.one (s!"model.layers.{layer_idx}.input_layernorm.weight")),
        (s!"max_text_layer/params-decoder-layers_{layer_idx}-post_self_attention_layer_norm-scale",
          MapVal.one (s!"model.layers.{layer_idx}.post_attention_layernorm.weight")) ])

/-- Tags naming the transform functions stored in the LLaMA3.1 hook table. -/
inductive HookFnTag where
  | reshape_kernel
  | identity_transform
  | transpose_transform
  deriving DecidableEq

/-- `LLAMA31_MAXTEXT_TO_HF_PARAM_HOOK_FN` from param_mapping.py (lines
450-550), as an association list in the source's insertion order; values are
tags naming which transform function is attached to each key. Note the two
unprefixed norm keys in the scanned branch are transcribed exactly as the
source writes them (lines 523-524). -/
def LLAMA31_MAXTEXT_TO_HF_PARAM_HOOK_FN (config : Config) (scan_layers : Bool)
    (saving_to_hf : Bool) : List (String × HookFnTag) :=
  let nlayers := config.num_hidden_layers
  let _ := saving_to_hf
  let hook_fns : List (String × HookFnTag) :=
    [ ("max_text_layer/params-token_embedder-embedding", .identity_transform),
      ("max_text_layer/params-decoder-logits_dense-kernel", .transpose_transform) ]
  if scan_layers then
    hook_fns ++
    [ ("max_text_layer/params-decoder-layers-self_attention-query-kernel", .reshape_kernel),
      ("max_text_layer/params-decoder-layers-self_attention-key-kernel", .reshape_kernel),
      ("max_text_layer/params-decoder-layers-self_attention-value-kernel", .reshape_kernel),
      ("max_text_layer/params-decoder-layers-self_attention-out-kernel", .reshape_kernel),
      ("max_text_layer/params-decoder-layers-mlp-wi_0-kernel", .reshape_kernel),
      ("max_text_layer/params-decoder-layers-mlp-wi_1-kernel", .reshape_kernel),
      ("pre_self_attention_layer_norm-scale", .reshape_kernel),
      ("post_self_attention_layer_norm-scale", .reshape_kernel),
      ("max_text_layer/params-decoder-layers-pre_self_attention_layer_norm-scale", .reshape_kernel),
      ("max_text_layer/params-decoder-layers-mlp-wo-kernel", .reshape_kernel) ]
  else
    hook_fns ++ (List.range nlayers).flatMap (fun layer_idx =>
      [ (s!"max_text_layer/params-decoder-layers_{layer_idx}-self_attention-query-kernel", HookFnTag.reshape_kernel),
        (s!"max_text_layer/params-decoder-layers_{layer_idx}-self_attention-key-kernel", HookFnTag.reshape_kernel),
        (s!"max_text_layer/params-decoder-layers_{layer_idx}-self_attention-value-kernel", HookFnTag.reshape_kernel),
        (s!"max_text_layer/params-decoder-layers_{layer_idx}-self_attention-out-kernel", HookFnTag.reshape_kernel),
        (s!"max_text_layer/params-decoder-layers_{layer_idx}-mlp-wi_0-kernel", HookFnTag.reshape_kernel),
        (s!"max_text_layer/params-decoder-layers_{layer_idx}-mlp-wi_1-kernel", HookFnTag.reshape_kernel),
        (s!"max_text_layer/params-decoder-layers_{layer_idx}-mlp-wo-kernel", HookFnTag.reshape_kernel),
        (s!"max_text_layer/params-decoder-layers_{layer_idx}-pre_self_attention_layer_norm-scale", HookFnTag.reshape_kernel),
        (s!"max_text_layer/params-decoder-layers_{layer_idx}-post_self_attention_layer_norm-scale", HookFnTag.reshape_kernel) ])

/-- The eleven per-layer tensor kinds of the Gemma2 dual-sublayer mapping
(claim-side enumeration for stating the C6 index structure). -/
inductive G2Kind where
  | preSelfAttnNorm
  | mlpWo
  | mlpWi1
  | mlpWi0
  | postSelfAttnNorm
  | postFfwNorm
  | preFfwNorm
  | attnKey
  | attnOut
  | attnQuery
  | attnValue
  deriving DecidableEq

/-- HF target path of a per-layer tensor kind at HF layer index `i`. -/
def g2HFPath (i : Nat) : G2Kind → String
  | .preSelfAttnNorm => s!"model.layers.{i}.input_layernorm.weight"
  | .mlpWo => s!"model.layers.{i}.mlp.down_proj.weight"
  | .mlpWi1 => s!"model.layers.{i}.mlp.up_proj.weight"
  | .mlpWi0 => s!"model.layers.{i}.mlp.gate_proj.weight"
  | .postSelfAttnNorm => s!"model.layers.{i}.post_attention_layernorm.weight"
  | .postFfwNorm => s!"model.layers.{i}.post_feedforward_layernorm.weight"
  | .preFfwNorm => s!"model.layers.{i}.pre_feedforward_layernorm.weight"
  | .attnKey => s!"model.layers.{i}.self_attn.k_proj.weight"
  | .attnOut => s!"model.layers.{i}.self_attn.o_proj.weight"
  | .attnQuery => s!"model.layers.{i}.self_attn.q_proj.weight"
  | .attnValue => s!"model.layers.{i}.self_attn.v_proj.weight"

/-- MaxText stacked-parameter key of a tensor kind in the scanned layout;
`true` selects the global sublayer, `false` the local one. -/
def g2ScanKey : Bool → G2Kind → String
  | true, .preSelfAttnNorm => "params-decoder-layers-pre_self_attention_norm_global-scale"
  | true, .mlpWo => "params-decoder-layers-mlp_global-wo-kernel"
  | true, .mlpWi1 => "params-decoder-layers-mlp_global-wi_1-kernel"
  | true, .mlpWi0 => "params-decoder-layers-mlp_global-wi_0-kernel"
  | true, .postSelfAttnNorm => "params-decoder-layers-post_self_attention_norm_global-scale"
  | true, .postFfwNorm => "params-decoder-layers-post_ffw_norm_global-scale"
  | true, .preFfwNorm => "params-decoder-layers-pre_ffw_norm_global-scale"
  | true, .attnKey => "params-decoder-layers-self_attention_global-key-kernel"
  | true, .attnOut => "params-decoder-layers-self_attention_global-out-kernel"
  | true, .attnQuery => "params-decoder-layers-self_attention_global-query-kernel"
  | true, .attnValue => "params-decoder-layers-self_attention_global-value-kernel"
  | false, .preSelfAttnNorm => "params-decoder-layers-pre_self_attention_norm_local-scale"
  | false, .mlpWo => "params-decoder-layers-mlp_local-wo-kernel"
  | false, .mlpWi1 => "params-decoder-layers-mlp_local-wi_1-kernel"
  | false, .mlpWi0 => "params-decoder-layers-mlp_local-wi_0-kernel"
  | false, .postSelfAttnNorm => "params-decoder-layers-post_self_attention_norm_local-scale"
  | false, .postFfwNorm => "params-decoder-layers-post_ffw_norm_local-scale"
  | false, .preFfwNorm => "params-decoder-layers-pre_ffw_norm_local-scale"
  | false, .attnKey => "params-decoder-layers-self_attention_local-key-kernel"
  | false, .attnOut => "params-decoder-layers-self_attention_local-out-kernel"
  | false, .attnQuery => "params-decoder-layers-self_attention_local-query-kernel"
  | false, .attnValue => "params-decoder-layers-self_attention_local-value-kernel"

/-- MaxText per-layer parameter key of a tensor kind at compact layer `i` in
the unscanned layout; `true` selects the global sublayer. -/
def g2LayerKey (i : Nat) : Bool → G2Kind → String
  | true, .preSelfAttnNorm => s!"params-decoder-layers_{i}-pre_self_attention_norm_global-scale"
  | true, .mlpWo => s!"params-decoder-layers_{i}-mlp_global-wo-kernel"
  | true, .mlpWi1 => s!"params-decoder-layers_{i}-mlp_global-wi_1-kernel"
  | true, .mlpWi0 => s!"params-decoder-layers_{i}-mlp_global-wi_0-kernel"
  | true, .postSelfAttnNorm => s!"params-decoder-layers_{i}-post_self_attention_norm_global-scale"
  | true, .postFfwNorm => s!"params-decoder-layers_{i}-post_ffw_norm_global-scale"
  | true, .preFfwNorm => s!"params-decoder-layers_{i}-pre_ffw_norm_global-scale"
  | true, .attnKey => s!"params-decoder-layers_{i}-self_attention_global-key-kernel"
  | true, .attnOut => s!"params-decoder-layers_{i}-self_attention_global-out-kernel"
  | true, .attnQuery => s!"params-decoder-layers_{i}-self_attention_global-query-kernel"
  | true, .attnValue => s!"params-decoder-layers_{i}-self_attention_global-value-kernel"
  | false, .preSelfAttnNorm => s!"params-decoder-layers_{i}-pre_self_attention_norm_local-scale"
  | false, .mlpWo => s!"params-decoder-layers_{i}-mlp_local-wo-kernel"
  | false, .mlpWi1 => s!"params-decoder-layers_{i}-mlp_local-wi_1-kernel"
  | false, .mlpWi0 => s!"params-decoder-layers_{i}-mlp_local-wi_0-kernel"
  | false, .postSelfAttnNorm => s!"params-decoder-layers_{i}-post_self_attention_norm_local-scale"
  | false, .postFfwNorm => s!"params-decoder-layers_{i}-post_ffw_norm_local-scale"
  | false, .preFfwNorm => s!"params-decoder-layers_{i}-pre_ffw_norm_local-scale"
  | false, .attnKey => s!"params-decoder-layers_{i}-self_attention_local-key-kernel"
  | false, .attnOut => s!"params-decoder-layers_{i}-self_attention_local-out-kernel"
  | false, .attnQuery => s!"params-decoder-layers_{i}-self_attention_local-query-kernel"
  | false, .attnValue => s!"params-decoder-layers_{i}-self_attention_local-value-kernel"

/-- The raise condition asserted by claim C9 as stated: a named policy
together with an explicit dtype, or a supplied dtype pair with no named
policy that is neither equal nor one of the two mixed pairs. -/
def c9ClaimRaises (precision weight_dtype activation_dtype : Option String) : Prop :=
  (precision ≠ none ∧ (weight_dtype ≠ none ∨ activation_dtype ≠ none)) ∨
  (precision = none ∧ ¬ (weight_dtype = activation_dtype ∨
    (weight_dtype = some float32 ∧ activation_dtype = some float16) ∨
    (weight_dtype = some float32 ∧ activation_dtype = some bfloat16)))

/-- The amended raise condition: as claim C9, plus the case that `precision`
is `None` while a weight or activation dtype is missing (in particular when
all three arguments are omitted), which the `assert` rejects. -/
def c9AmendedRaises (precision weight_dtype activation_dtype : Option String) : Prop :=
  (precision ≠ none ∧ (weight_dtype ≠ none ∨ activation_dtype ≠ none)) ∨
  (precision = none ∧ (weight_dtype = none ∨ activation_dtype = none)) ∨
  (precision = none ∧ weight_dtype ≠ none ∧ activation_dtype ≠ none ∧
    ¬ (weight_dtype = activation_dtype ∨
      (weight_dtype = some float32 ∧ activation_dtype = some float16) ∨
      (weight_dtype = some float32 ∧ activation_dtype = some bfloat16)))

instance (p w a : Option String) : Decidable (c9ClaimRaises p w a) := by
  unfold c9ClaimRaises; infer_instance

instance (p w a : Option String) : Decidable (c9AmendedRaises p w a) := by
  unfold c9AmendedRaises; infer_instance

/-- A multi-index valid for a shape round-trips through `fromMulti`. -/
theorem fromMulti_lt (s : List Nat) :
    ∀ js, List.Forall₂ (· < ·) js s → fromMulti s js < s.prod := by
  induction s with
  | nil =>
    intro js h
    cases h
    simp [fromMulti]
  | cons d ds ih =>
    intro js h
    cases js with
    | nil => cases h
    | cons j js2 =>
      cases h with
      | cons hj hrest =>
        have h2 := ih _ hrest
        have hp : 0 < ds.prod := Nat.pos_of_ne_zero (by omega)
        simp only [fromMulti, List.prod_cons]
        calc j * ds.prod + fromMulti ds js2 < j * ds.prod + ds.prod := by omega
          _ = (j + 1) * ds.prod := by ring
          _ ≤ d * ds.prod := Nat.mul_le_mul_right _ hj

theorem fromMulti_toMulti (s : List Nat) :
    ∀ i, i < s.prod → fromMulti s (toMulti s i) = i := by
  induction s with
  | nil =>
    intro i hi
    simp only [List.prod_nil, Nat.lt_one_iff] at hi
    subst hi
    rfl
  | cons d ds ih =>
    intro i hi
    simp only [List.prod_cons] at hi
    have hp : 0 < ds.prod := by
      rcases Nat.eq_zero_or_pos ds.prod with h | h
      · rw [h, Nat.mul_zero] at hi; omega
      · exact h
    simp only [toMulti, fromMulti]
    rw [ih _ (Nat.mod_lt _ hp), Nat.mul_comm]
    exact Nat.div_add_mod i ds.prod

theorem toMulti_valid (s : List Nat) :
    ∀ i, i < s.prod → List.Forall₂ (· < ·) (toMulti s i) s := by
  induction s with
  | nil => intro i _; exact List.Forall₂.nil
  | cons d ds ih =>
    intro i hi
    simp only [List.prod_cons] at hi
    have hp : 0 < ds.prod := by
      rcases Nat.eq_zero_or_pos ds.prod with h | h
      · rw [h, Nat.mul_zero] at hi; omega
      · exact h
    refine List.Forall₂.cons ?_ (ih _ (Nat.mod_lt _ hp))
    exact (Nat.div_lt_iff_lt_mul hp).mpr (by omega)

theorem toMulti_fromMulti (s : List Nat) :
    ∀ js, List.Forall₂ (· < ·) js s → toMulti s (fromMulti s js) = js := by
  induction s with
  | nil =>
    intro js h
    cases h
    rfl
  | cons d ds ih =>
    intro js h
    cases h with
    | cons hj hrest =>
      have hf := fromMulti_lt ds _ hrest
      have hp : 0 < ds.prod := Nat.pos_of_ne_zero (by omega)
      simp only [fromMulti, toMulti]
      rw [Nat.add_comm, Nat.add_mul_div_right _ _ hp, Nat.div_eq_of_lt hf,
          Nat.zero_add, Nat.add_mul_mod_self_right, Nat.mod_eq_of_lt hf,
          ih _ hrest]

theorem permIdx_lt (s : List Nat) (i : Nat) (hi : i < s.prod) :
    permIdx s i < s.prod := by
  have h1 : i < s.reverse.prod := by rwa [List.prod_reverse]
  have h2 := toMulti_valid s.reverse i h1
  have h3 : List.Forall₂ (· < ·) ((toMulti s.reverse i).reverse) s := by
    have h4 := List.rel_reverse h2
    rwa [List.reverse_reverse] at h4
  exact fromMulti_lt s _ h3

theorem permIdx_permIdx (s : List Nat) (i : Nat) (hi : i < s.prod) :
    permIdx s.reverse (permIdx s i) = i := by
  have h1 : i < s.reverse.prod := by rwa [List.prod_reverse]
  have hv := toMulti_valid s.reverse i h1
  have hv2 : List.Forall₂ (· < ·) ((toMulti s.reverse i).reverse) s := by
    have h4 := List.rel_reverse hv
    rwa [List.reverse_reverse] at h4
  show fromMulti s.reverse ((toMulti s.reverse.reverse (permIdx s i)).reverse) = i
  rw [List.reverse_reverse]
  show fromMulti s.reverse
      ((toMulti s (fromMulti s ((toMulti s.reverse i).reverse))).reverse) = i
  rw [toMulti_fromMulti s _ hv2, List.reverse_reverse]
  exact fromMulti_toMulti s.reverse i h1

theorem length_transposeData [Inhabited α] (s : List Nat) (d : List α) :
    (transposeData s d).length = d.length := by
  simp [transposeData]

theorem getElem_transposeData [Inhabited α] (s : List Nat) (d : List α)
    (i : Nat) (h : i < (transposeData s d).length) :
    (transposeData s d)[i] = d.getD (permIdx s i) default := by
  simp [transposeData]

theorem transposeData_transposeData [Inhabited α] (s : List Nat) (d : List α)
    (hd : d.length = s.prod) :
    transposeData s.reverse (transposeData s d) = d := by
  apply List.ext_getElem
  · rw [length_transposeData, length_transposeData]
  · intro i h1 h2
    rw [getElem_transposeData]
    have hi : i < s.reverse.prod := by
      rw [List.prod_reverse]
      omega
    have hj : permIdx s.reverse i < s.reverse.prod := permIdx_lt _ _ hi
    have hj2 : permIdx s.reverse i < (transposeData s d).length := by
      rw [length_transposeData, hd, ← List.prod_reverse]
      exact hj
    rw [List.getD_eq_getElem _ _ hj2, getElem_transposeData]
    have hk : permIdx s (permIdx s.reverse i) = i := by
      have h5 := permIdx_permIdx s.reverse i hi
      rwa [List.reverse_reverse] at h5
    rw [hk, List.getD_eq_getElem _ _ h2]

/-- With an empty stop set, the EOS bookkeeping leaves the flags unchanged
and cannot raise. -/
theorem eosUpdate_nil : ∀ (ts : List Int) (i : Nat) (reached : List Bool),
    eosUpdate [] ts i reached = .ok reached := by
  intro ts
  induction ts with
  | nil => intro i reached; rfl
  | cons t ts ih =>
    intro i reached
    simp only [eosUpdate, List.not_mem_nil, if_false]
    exact ih _ _

/-- Writing at or beyond position `n` does not change the first `k ≤ n`
entries of a list. -/
theorem take_set_of_le (l : List α) (n : Nat) (a : α) (k : Nat) (h : k ≤ n) :
    (l.set n a).take k = l.take k := by
  apply List.ext_getElem
  · simp
  · intro i h1 h2
    have hik : i < k := by rw [List.length_take] at h1; omega
    simp only [List.getElem_take]
    rw [List.getElem_set, if_neg (by omega)]

/-- For a shape-conformant model, the per-step prediction vector has one
entry per (padded) batch row. -/
theorem length_nextTokensOf (model : GenInputs → List (List (List Int)))
    (hm : ∀ x, (model x).length = x.token_ids.length) (st : LoopState) :
    (nextTokensOf model st).length = st.tokens.length := by
  simp [nextTokensOf, hm ⟨st.tokens, st.segment_ids⟩]

theorem stepState_tokens_length (st : LoopState) (nt : List Int)
    (reached : List Bool) (hnt : nt.length = st.tokens.length) :
    (stepState st nt reached).tokens.length = st.tokens.length := by
  simp [stepState, hnt]

theorem stepState_tokens_rows (st : LoopState) (nt : List Int)
    (reached : List Bool) (L : Nat) (hr : ∀ r ∈ st.tokens, r.length = L) :
    ∀ r ∈ (stepState st nt reached).tokens, r.length = L := by
  intro r hrm
  simp only [stepState] at hrm
  obtain ⟨i, hi, rfl⟩ := List.getElem_of_mem hrm
  rw [List.getElem_zipWith]
  rw [List.length_set]
  exact hr _ (List.getElem_mem _)

theorem stepState_mask_length (st : LoopState) (nt : List Int)
    (reached : List Bool) :
    (stepState st nt reached).segment_ids.length = st.segment_ids.length := by
  simp [stepState]

theorem stepState_take_below (st : LoopState) (nt : List Int)
    (reached : List Bool) (k : Nat) (hk : k ≤ st.num_tokens)
    (hnt : nt.length = st.tokens.length) :
    ∀ j, ((stepState st nt reached).tokens.getD j []).take k =
      (st.tokens.getD j []).take k := by
  intro j
  by_cases hj : j < st.tokens.length
  · have hj2 : j < (stepState st nt reached).tokens.length := by
      rw [stepState_tokens_length st nt reached hnt]; exact hj
    rw [List.getD_eq_getElem _ _ hj2, List.getD_eq_getElem _ _ hj]
    simp only [stepState]
    rw [List.getElem_zipWith]
    exact take_set_of_le _ _ _ _ hk
  · have h1 : st.tokens.length ≤ j := by omega
    have h2 : (stepState st nt reached).tokens.length ≤ j := by
      rw [stepState_tokens_length st nt reached hnt]; omega
    rw [List.getD_eq_default _ _ h2, List.getD_eq_default _ _ h1]

/-- Shape invariant of the decode loop: for a shape-conformant model, a
successful run preserves the number of batch rows of both buffers and the
length of every token row, never moves the cursor backwards, and never
touches token positions below any bound `k` on the entry cursor. -/
theorem stepLoop_ok_shapes (model : GenInputs → List (List (List Int)))
    (hm : ∀ x, (model x).length = x.token_ids.length)
    (stop_token_ids : List Int) (L k : Nat) :
    ∀ fuel st st', stepLoop model stop_token_ids fuel st = .ok st' →
      (∀ r ∈ st.tokens, r.length = L) → k ≤ st.num_tokens →
      st'.tokens.length = st.tokens.length ∧
      (∀ r ∈ st'.tokens, r.length = L) ∧
      st'.segment_ids.length = st.segment_ids.length ∧
      k ≤ st'.num_tokens ∧
      (∀ j, (st'.tokens.getD j []).take k = (st.tokens.getD j []).take k) := by
  intro fuel
  induction fuel with
  | zero =>
    intro st st' h hr hk
    simp only [stepLoop] at h
    cases h
    exact ⟨rfl, hr, rfl, hk, fun j => rfl⟩
  | succ fuel ih =>
    intro st st' h hr hk
    simp only [stepLoop] at h
    split at h
    · simp at h
    · rename_i reached heq
      have hnt : (nextTokensOf model st).length = st.tokens.length :=
        length_nextTokensOf model hm st
      have f1 := stepState_tokens_length st (nextTokensOf model st) reached hnt
      have f2 := stepState_tokens_rows st (nextTokensOf model st) reached L hr
      have f3 := stepState_mask_length st (nextTokensOf model st) reached
      have f4 : k ≤ (stepState st (nextTokensOf model st) reached).num_tokens := by
        simp only [stepState]; omega
      have f5 := stepState_take_below st (nextTokensOf model st) reached k hk hnt
      split at h
      · cases h
        exact ⟨f1, f2, f3, f4, f5⟩
      · obtain ⟨g1, g2, g3, g4, g5⟩ := ih _ _ h f2 f4
        exact ⟨g1.trans f1, g2, g3.trans f3, g4, fun j => (g5 j).trans (f5 j)⟩

/-- With a nonempty batch and an empty stop set the loop can neither raise
nor exit early: it runs its full fuel, advancing cursor and step counter by
the fuel, and the EOS flags stay all-false. -/
theorem stepLoop_noStop (model : GenInputs → List (List (List Int)))
    (b : Nat) (hb : b ≠ 0) :
    ∀ fuel st, st.reached_eos = List.replicate b false →
      ∃ st', stepLoop model [] fuel st = .ok st' ∧
        st'.stepsRun = st.stepsRun + fuel ∧
        st'.num_tokens = st.num_tokens + fuel ∧
        st'.reached_eos = List.replicate b false := by
  intro fuel
  induction fuel with
  | zero =>
    intro st hre
    exact ⟨st, rfl, rfl, rfl, hre⟩
  | succ fuel ih =>
    intro st hre
    have hall : st.reached_eos.all (fun x => x) = false := by
      rw [hre]
      cases b with
      | zero => omega
      | succ n => simp [List.replicate_succ]
    obtain ⟨st', h1, h2, h3, h4⟩ :=
      ih (stepState st (nextTokensOf model st) st.reached_eos) hre
    have hstep : stepLoop model [] (fuel + 1) st =
        stepLoop model [] fuel (stepState st (nextTokensOf model st) st.reached_eos) := by
      simp only [stepLoop, eosUpdate_nil, hall, Bool.false_eq_true, if_false]
    refine ⟨st', hstep.trans h1, ?_, ?_, h4⟩
    · simp only [stepState] at h2; omega
    · simp only [stepState] at h3; omega

theorem paddedInputs_token_length (d : Nat) (inputs : GenInputs) :
    (paddedInputs d inputs).token_ids.length =
      inputs.token_ids.length +
        (if inputs.token_ids.length % d = 0 then 0
         else d - inputs.token_ids.length % d) := by
  simp [paddedInputs]

theorem paddedInputs_mask_length (d : Nat) (inputs : GenInputs) :
    (paddedInputs d inputs).padding_mask.length =
      inputs.padding_mask.length +
        (if inputs.token_ids.length % d = 0 then 0
         else d - inputs.token_ids.length % d) := by
  simp [paddedInputs]

/-- The padded batch keeps the original rows as its prefix. -/
theorem paddedInputs_token_take (d : Nat) (inputs : GenInputs) :
    (paddedInputs d inputs).token_ids.take inputs.token_ids.length =
      inputs.token_ids := by
  simp only [paddedInputs]
  exact List.take_left _ _

/-- Every row appended by the batch padding is zero-valued. -/
theorem paddedInputs_token_drop_zero (d : Nat) (inputs : GenInputs) :
    ∀ r ∈ (paddedInputs d inputs).token_ids.drop inputs.token_ids.length,
      ∀ v ∈ r, v = 0 := by
  intro r hr v hv
  simp only [paddedInputs, List.drop_left] at hr
  have h2 := List.eq_of_mem_replicate hr
  subst h2
  exact List.eq_of_mem_replicate hv

theorem paddedInputs_token_rows (d L : Nat) (inputs : GenInputs)
    (h : inputs.token_ids ≠ []) (hr : ∀ r ∈ inputs.token_ids, r.length = L) :
    ∀ r ∈ (paddedInputs d inputs).token_ids, r.length = L := by
  intro r hrm
  simp only [paddedInputs] at hrm
  rcases List.mem_append.mp hrm with h1 | h1
  · exact hr _ h1
  · have h2 := List.eq_of_mem_replicate h1
    subst h2
    rw [List.length_replicate]
    rcases hc : inputs.token_ids with _ | ⟨a, l⟩
    · exact absurd hc h
    · simp only [List.headD_cons]
      exact hr a (by rw [hc]; exact List.mem_cons_self a l)

theorem paddedInputs_mask_headD (d : Nat) (inputs : GenInputs)
    (h : inputs.padding_mask ≠ []) :
    (paddedInputs d inputs).padding_mask.headD [] =
      inputs.padding_mask.headD [] := by
  rcases hc : inputs.padding_mask with _ | ⟨a, l⟩
  · exact absurd hc h
  · simp [paddedInputs, hc]

theorem initialNumTokens_padded (d : Nat) (inputs : GenInputs)
    (h : inputs.padding_mask ≠ []) :
    initialNumTokens (paddedInputs d inputs).padding_mask =
      initialNumTokens inputs.padding_mask := by
  unfold initialNumTokens
  rw [paddedInputs_mask_headD d inputs h]

theorem seqLen_padded (d : Nat) (inputs : GenInputs)
    (h : inputs.padding_mask ≠ []) :
    seqLen (paddedInputs d inputs).padding_mask = seqLen inputs.padding_mask := by
  unfold seqLen
  rw [paddedInputs_mask_headD d inputs h]

/-- A `Model._generate` call with an empty stop set on a nonempty batch of
uniform row length returns successfully; the trace records the engine
quantities of model.py lines 185-192 and the full-fuel loop run, and (without
prompt stripping) the outputs are sliced back to the original batch size with
`num_tokens` columns. -/
theorem Model_generate_noStop (d : Nat)
    (model : GenInputs → List (List (List Int))) (inputs : GenInputs)
    (max_length : Int) (strip_prompt : Bool) (L : Nat)
    (hm : ∀ x, (model x).length = x.token_ids.length)
    (hb : inputs.token_ids ≠ [])
    (hrows : ∀ r ∈ inputs.token_ids, r.length = L) :
    ∃ tr, Model_generate d model inputs max_length [] strip_prompt = .ok tr ∧
      tr.numTokens0 = initialNumTokens (paddedInputs d inputs).padding_mask ∧
      tr.generate_steps =
        generateStepsOf (paddedInputs d inputs).padding_mask max_length ∧
      tr.stepsRun = tr.generate_steps.toNat ∧
      tr.num_tokens_final = tr.numTokens0 + tr.generate_steps.toNat ∧
      (strip_prompt = false →
        tr.token_ids.length = inputs.token_ids.length ∧
        ∀ r ∈ tr.token_ids, r.length = min tr.num_tokens_final L) := by
  have hbne : inputs.token_ids.length ≠ 0 := by
    intro h0
    exact hb (List.length_eq_zero.mp h0)
  obtain ⟨st', h1, h2, h3, h4⟩ :=
    stepLoop_noStop model inputs.token_ids.length hbne
      (generateStepsOf (paddedInputs d inputs).padding_mask max_length).toNat
      (initLoopState (paddedInputs d inputs) inputs.token_ids.length) rfl
  have hrows2 := paddedInputs_token_rows d L inputs hb hrows
  obtain ⟨g1, g2, g3, g4, g5⟩ :=
    stepLoop_ok_shapes model hm [] L 0 _ _ _ h1 hrows2 (Nat.zero_le _)
  simp only [initLoopState] at h2 h3 g1 g3
  rcases hmg : Model_generate d model inputs max_length [] strip_prompt with e | tr
  · exfalso
    simp only [Model_generate] at hmg
    rw [h1] at hmg
    exact Except.noConfusion hmg
  have hmg2 := hmg
  simp only [Model_generate] at hmg2
  rw [h1] at hmg2
  injection hmg2 with h5
  subst h5
  refine ⟨_, rfl, ?_, ?_, ?_, ?_, ?_⟩
  · rfl
  · rfl
  · dsimp only
    omega
  · dsimp only
    omega
  · intro hstrip
    subst hstrip
    dsimp only
    simp only [Bool.false_eq_true, if_false]
    constructor
    · rw [List.length_map, List.length_take]
      have hle : inputs.token_ids.length ≤
          (paddedInputs d inputs).token_ids.length := by
        rw [paddedInputs_token_length]
        omega
      omega
    · intro r hrm
      simp only [List.mem_map] at hrm
      obtain ⟨r0, hr0, rfl⟩ := hrm
      rw [List.length_take]
      have hr0L : r0.length = L := g2 _ (List.mem_of_mem_take hr0)
      rw [hr0L]

/-- Facts about every successful `Model._generate` call on a rectangular,
nonempty batch: both returned arrays are sliced back to the original
(unpadded) batch size; the caller-visible `inputs` dictionary holds the
padded mask unchanged by the loop, and its token entry — the in-place
mutated buffer — still agrees with the padded original strictly below the
initial cursor. -/
theorem Model_generate_ok_facts (d : Nat)
    (model : GenInputs → List (List (List Int))) (inputs : GenInputs)
    (max_length : Int) (stop_token_ids : List Int) (strip_prompt : Bool)
    (L : Nat) (tr : GenTrace)
    (hm : ∀ x, (model x).length = x.token_ids.length)
    (hb : inputs.token_ids ≠ [])
    (hrows : ∀ r ∈ inputs.token_ids, r.length = L)
    (hmask : inputs.padding_mask.length = inputs.token_ids.length)
    (h : Model_generate d model inputs max_length stop_token_ids strip_prompt =
      .ok tr) :
    tr.token_ids.length = inputs.token_ids.length ∧
    tr.padding_mask.length = inputs.token_ids.length ∧
    tr.finalInputs.padding_mask = (paddedInputs d inputs).padding_mask ∧
    ∀ j, (tr.finalInputs.token_ids.getD j []).take tr.numTokens0 =
      ((paddedInputs d inputs).token_ids.getD j []).take tr.numTokens0 := by
  simp only [Model_generate] at h
  rcases hrun : stepLoop model stop_token_ids
      (generateStepsOf (paddedInputs d inputs).padding_mask max_length).toNat
      (initLoopState (paddedInputs d inputs) inputs.token_ids.length) with e | st
  · rw [hrun] at h
    exact Except.noConfusion h
  · rw [hrun] at h
    injection h with h5
    subst h5
    obtain ⟨g1, g2, g3, g4, g5⟩ :=
      stepLoop_ok_shapes model hm stop_token_ids L
        (initialNumTokens (paddedInputs d inputs).padding_mask) _ _ _ hrun
        (paddedInputs_token_rows d L inputs hb hrows) Nat.le.refl
    simp only [initLoopState] at g1 g3 g5
    have hble : inputs.token_ids.length ≤
        (paddedInputs d inputs).token_ids.length := by
      rw [paddedInputs_token_length]
      omega
    have hmble : inputs.token_ids.length ≤
        (paddedInputs d inputs).padding_mask.length := by
      rw [paddedInputs_mask_length, hmask]
      omega
    refine ⟨?_, ?_, rfl, ?_⟩
    · cases strip_prompt <;> simp [List.length_take] <;> omega
    · cases strip_prompt <;> simp [List.length_take] <;> omega
    · intro j
      exact g5 j

/-- C5: for the kernel reshape/transpose and RMS-norm scale-shift transforms,
applying the to-HF direction and then the from-HF direction (with the
original tensor's shape as the final target shape) returns the original
tensor exactly, for every tensor whose element count matches the target
shape's product; the embedding pad/crop transform is excluded from this
round trip. -/
theorem transform_round_trip_exact :
    (∀ (x : Tensor ℚ) (s1 : List Nat),
      x.data.length = x.shape.prod → x.data.length = s1.prod →
      (reshape_kernel true x s1).bind
        (fun y => reshape_kernel false y x.shape) = some x) ∧
    (∀ (x : Tensor ℚ) (s1 : List Nat),
      x.data.length = x.shape.prod → x.data.length = s1.prod →
      (scale_rmsnorm_layer true x s1).bind
        (fun y => scale_rmsnorm_layer false y x.shape) = some x) := by
  constructor
  · intro x s1 hwf hs1
    have hrev : x.data.length = s1.reverse.prod := by
      rw [List.prod_reverse]
      exact hs1
    have e1 : Tensor.reshape x s1.reverse = some ⟨s1.reverse, x.data⟩ := by
      unfold Tensor.reshape
      rw [if_pos hrev]
    have e2 : reshape_kernel true x s1 =
        some (Tensor.transpose ⟨s1.reverse, x.data⟩) := by
      unfold reshape_kernel
      rw [if_pos rfl, e1, Option.map_some']
    rw [e2, Option.some_bind]
    unfold reshape_kernel
    rw [if_neg Bool.false_ne_true]
    have e3 : Tensor.transpose (Tensor.transpose (⟨s1.reverse, x.data⟩ : Tensor ℚ)) =
        ⟨s1.reverse.reverse.reverse, x.data⟩ := by
      unfold Tensor.transpose
      dsimp only
      rw [transposeData_transposeData _ _ hrev]
    rw [e3]
    unfold Tensor.reshape
    dsimp only
    rw [if_pos hwf]
  · intro x s1 hwf hs1
    simp only [scale_rmsnorm_layer]
    simp only [if_true, Bool.false_eq_true, if_false]
    have e1 : Tensor.reshape ⟨x.shape, x.data.map (fun v => v - 1)⟩ s1 =
        some ⟨s1, x.data.map (fun v => v - 1)⟩ := by
      unfold Tensor.reshape
      dsimp only
      rw [List.length_map, if_pos hs1]
    rw [e1, Option.some_bind]
    have e2 : ((x.data.map (fun v => v - 1)).map (fun v => v + 1)) = x.data := by
      rw [List.map_map]
      have e4 : ((fun v => v + 1) ∘ (fun v => v - 1)) = (id : ℚ → ℚ) := by
        funext v
        simp
      rw [e4, List.map_id]
    unfold Tensor.reshape
    dsimp only
    rw [e2, if_pos hwf]

/-- C5 witness: the round trip at a concrete 2 × 3 tensor through the
transposed target shape `[3, 2]`. -/
theorem transform_round_trip_exact_witness :
    ((reshape_kernel true (⟨[2, 3], [0, 1, 2, 3, 4, 5]⟩ : Tensor ℚ) [3, 2]).bind
      (fun y => reshape_kernel false y [2, 3]) =
        some ⟨[2, 3], [0, 1, 2, 3, 4, 5]⟩) ∧
    ((scale_rmsnorm_layer true (⟨[2, 3], [0, 1, 2, 3, 4, 5]⟩ : Tensor ℚ) [3, 2]).bind
      (fun y => scale_rmsnorm_layer false y [2, 3]) =
        some ⟨[2, 3], [0, 1, 2, 3, 4, 5]⟩) :=
  ⟨transform_round_trip_exact.1 ⟨[2, 3], [0, 1, 2, 3, 4, 5]⟩ [3, 2]
      (by decide) (by decide),
   transform_round_trip_exact.2 ⟨[2, 3], [0, 1, 2, 3, 4, 5]⟩ [3, 2]
      (by decide) (by decide)⟩

/-- C4 counterexample: `scale_query_layer` given a target shape whose element
count (6) mismatches the tensor's element count (4) raises nothing and
returns the tensor unchanged in shape — the claimed universal ShapeMismatch
failure does not hold. -/
theorem transform_shape_mismatch_counterexample :
    (([1, 2, 3, 4] : List ℚ).length ≠ List.prod [6]) ∧
    scale_query_layer 1 1 false (⟨[4], [1, 2, 3, 4]⟩ : Tensor ℚ) [6] =
      ⟨[4], [1, 2, 3, 4]⟩ := by
  constructor
  · decide
  · show Tensor.mk [4] ([1, 2, 3, 4].map (fun v => v * 1)) = ⟨[4], [1, 2, 3, 4]⟩
    norm_num

/-- C4 (amended): the reshape-based transforms (`reshape_kernel`,
`scale_rmsnorm_layer`) fail with a reshape error on every element-count
mismatch; `scale_query_layer` never consults the target shape and never
fails; the embedding crop direction crops to the target block without any
element-count check. -/
theorem transform_shape_mismatch_amended :
    (∀ (b : Bool) (t : Tensor ℚ) (s : List Nat), t.data.length ≠ s.prod →
      reshape_kernel b t s = none) ∧
    (∀ (b : Bool) (t : Tensor ℚ) (s : List Nat), t.data.length ≠ s.prod →
      scale_rmsnorm_layer b t s = none) ∧
    (∀ (sq isq : ℚ) (b : Bool) (t : Tensor ℚ) (s s2 : List Nat),
      scale_query_layer sq isq b t s = scale_query_layer sq isq b t s2 ∧
      (scale_query_layer sq isq b t s).shape = t.shape) ∧
    (∀ (nrm : ℚ) (m : List (List ℚ)) (ts : Nat × Nat),
      (pad_hf_embedding_to_hf nrm m ts).length = min ts.1 m.length) := by
  refine ⟨?_, ?_, ?_, ?_⟩
  · intro b t s hne
    cases b
    · unfold reshape_kernel
      rw [if_neg Bool.false_ne_true]
      unfold Tensor.reshape
      rw [if_neg]
      simpa [Tensor.transpose, length_transposeData] using hne
    · unfold reshape_kernel
      rw [if_pos rfl]
      unfold Tensor.reshape
      rw [if_neg]
      · rfl
      · rw [List.prod_reverse]
        exact hne
  · intro b t s hne
    cases b
    · unfold scale_rmsnorm_layer
      rw [if_neg Bool.false_ne_true]
      unfold Tensor.reshape
      rw [if_neg]
      simpa using hne
    · unfold scale_rmsnorm_layer
      rw [if_pos rfl]
      unfold Tensor.reshape
      rw [if_neg]
      simpa using hne
  · intro sq isq b t s s2
    refine ⟨rfl, ?_⟩
    cases b <;> rfl
  · intro nrm m ts
    simp [pad_hf_embedding_to_hf]

/-- C4 witness: the amended behaviour evaluated at a 2 × 2 tensor against
the mismatching target shape `[3]`, and the query rescale at a mismatching
shape. -/
theorem transform_shape_mismatch_amended_witness :
    reshape_kernel true (⟨[2, 2], [0, 1, 2, 3]⟩ : Tensor ℚ) [3] = none ∧
    scale_rmsnorm_layer false (⟨[2, 2], [0, 1, 2, 3]⟩ : Tensor ℚ) [3] = none ∧
    (scale_query_layer 2 3 true (⟨[4], [1, 2, 3, 4]⟩ : Tensor ℚ) [5, 7]).shape =
      [4] :=
  ⟨transform_shape_mismatch_amended.1 true ⟨[2, 2], [0, 1, 2, 3]⟩ [3] (by decide),
   transform_shape_mismatch_amended.2.1 false ⟨[2, 2], [0, 1, 2, 3]⟩ [3] (by decide),
   (transform_shape_mismatch_amended.2.2.1 2 3 true ⟨[4], [1, 2, 3, 4]⟩ [5, 7] [9]).2⟩

/-- C9 counterexample: with all three arguments omitted the claim's raise
condition is false (the dtype pair is trivially equal), yet the `assert`
raises — so `set_precision` does not raise exactly on the claimed
condition. -/
theorem set_precision_claim_counterexample :
    ¬ c9ClaimRaises none none none ∧
    set_precision none none none = .error .configConflict := by
  constructor
  · decide
  · rfl

/-- C9 (amended): `set_precision` raises if and only if a named policy is
supplied together with an explicit dtype, or precision is omitted while a
weight or activation dtype is also omitted (the assert demands exactly one
of the two configuration styles), or precision is omitted and the supplied
dtype pair is neither equal nor (float32, float16) nor (float32, bfloat16);
in all other cases it returns the policy it sets. -/
theorem set_precision_raises_iff (p w a : Option String) :
    (set_precision p w a).isOk = false ↔ c9AmendedRaises p w a := by
  unfold set_precision c9AmendedRaises
  rcases p with _ | p <;> rcases w with _ | w <;> rcases a with _ | a <;>
      simp_all [Except.isOk, Except.toBool]
  all_goals split_ifs <;> simp_all [Except.isOk, Except.toBool]

/-- C3: parity failure between the LLaMA3.1 mapping table and hook table at
`scan_layers=True` (config with 2 hidden layers; the hook-table keys do not
depend on the direction flag). The mapping table contains the stacked
post-attention-norm key, the hook table does not (it holds an unprefixed
variant instead), although the same tensor kind is assigned the non-identity
`reshape_kernel` hook both at the stacked pre-norm key and at every
unscanned post-norm key. -/
theorem llama31_hook_parity_failure :
    ("max_text_layer/params-decoder-layers-post_self_attention_layer_norm-scale" ∈
        (LLAMA31_MAXTEXT_TO_HF_PARAM_MAPPING ⟨2, 8, 16⟩ true).map Prod.fst) ∧
    ("max_text_layer/params-decoder-layers-post_self_attention_layer_norm-scale" ∉
        (LLAMA31_MAXTEXT_TO_HF_PARAM_HOOK_FN ⟨2, 8, 16⟩ true false).map Prod.fst) ∧
    ("post_self_attention_layer_norm-scale" ∈
        (LLAMA31_MAXTEXT_TO_HF_PARAM_HOOK_FN ⟨2, 8, 16⟩ true false).map Prod.fst) ∧
    List.lookup "max_text_layer/params-decoder-layers-pre_self_attention_layer_norm-scale"
        (LLAMA31_MAXTEXT_TO_HF_PARAM_HOOK_FN ⟨2, 8, 16⟩ true false) =
      some .reshape_kernel ∧
    List.lookup "max_text_layer/params-decoder-layers_0-post_self_attention_layer_norm-scale"
        (LLAMA31_MAXTEXT_TO_HF_PARAM_HOOK_FN ⟨2, 8, 16⟩ false false) =
      some .reshape_kernel := by
  decide

/-- C6: in the Gemma2 dual-sublayer mapping, when `scan_layers=True` every
global per-layer tensor key maps to the ordered HF path list over
`range(1, n, 2)` and every local key to `range(0, n, 2)`; when
`scan_layers=False` each compact layer index `i` maps its local tensors to
HF layer `2i` and its global tensors to HF layer `2i+1`, each with its own
unscanned path, for every per-layer tensor kind. -/
theorem gemma2_dual_sublayer_mapping (config : Config) :
    (∀ (g : Bool) (k : G2Kind),
      List.lookup (g2ScanKey g k)
          (GEMMA2_MAXTEXT_TO_HF_PARAM_MAPPING config true) =
        some (MapVal.many
          ((rangeStep (if g then 1 else 0) config.num_hidden_layers 2).map
            (fun i => g2HFPath i k)))) ∧
    (∀ i, i < config.num_hidden_layers / 2 → ∀ (g : Bool) (k : G2Kind),
      (g2LayerKey i g k,
        MapVal.one (g2HFPath (if g then i * 2 + 1 else i * 2) k)) ∈
        GEMMA2_MAXTEXT_TO_HF_PARAM_MAPPING config false) := by
  constructor
  · intro g k
    cases g <;> cases k <;> rfl
  · intro i hi g k
    simp only [GEMMA2_MAXTEXT_TO_HF_PARAM_MAPPING, Bool.false_eq_true, if_false]
    refine List.mem_append_right _
      (List.mem_flatMap.mpr ⟨i, List.mem_range.mpr hi, ?_⟩)
    cases g <;> cases k <;> simp [gemma2LayerMapping, g2LayerKey, g2HFPath]

/-- C6 witness: the unscanned part discharged at a 4-layer config, compact
layer index 1, global sublayer, query kernel (HF layer 3). -/
theorem gemma2_dual_sublayer_mapping_witness :
    (g2LayerKey 1 true G2Kind.attnQuery,
      MapVal.one (g2HFPath 3 G2Kind.attnQuery)) ∈
      GEMMA2_MAXTEXT_TO_HF_PARAM_MAPPING ⟨4, 8, 16⟩ false :=
  (gemma2_dual_sublayer_mapping ⟨4, 8, 16⟩).2 1 (by decide) true G2Kind.attnQuery

/-- C2: every generate call computes `num_tokens` as the count of 1-entries
of the first sequence's mask and
`generate_steps = min(seq_len - num_tokens, max_length - num_tokens)`,
performing no step when that is non-positive; and on the concrete instance
(batch 2, seq_len 8, prompt mask `[1,1,1,0,0,0,0,0]`, max_length 8, no stop
tokens) it computes `num_tokens = 3`, `generate_steps = 5`, iterates exactly
5 steps and returns `token_ids` of shape 2 × 8. -/
theorem generate_steps_formula :
    (∀ (d : Nat) (model : GenInputs → List (List (List Int)))
        (inputs : GenInputs) (max_length : Int) (stop_token_ids : List Int)
        (strip_prompt : Bool) (tr : GenTrace),
      inputs.padding_mask ≠ [] →
      Model_generate d model inputs max_length stop_token_ids strip_prompt =
        .ok tr →
      tr.numTokens0 = (inputs.padding_mask.headD []).countP (fun v => v == 1) ∧
      tr.generate_steps =
        min (((inputs.padding_mask.headD []).length : Int) - (tr.numTokens0 : Int))
          (max_length - (tr.numTokens0 : Int)) ∧
      (tr.generate_steps ≤ 0 → tr.stepsRun = 0)) ∧
    (∀ (model : GenInputs → List (List (List Int))),
      (∀ x, (model x).length = x.token_ids.length) →
      ∀ t0 t1 : List Int, t0.length = 8 → t1.length = 8 →
      ∃ tr, Model_generate 1 model
          ⟨[t0, t1], [[1, 1, 1, 0, 0, 0, 0, 0], [1, 1, 1, 0, 0, 0, 0, 0]]⟩
          8 [] false = .ok tr ∧
        tr.numTokens0 = 3 ∧ tr.generate_steps = 5 ∧ tr.stepsRun = 5 ∧
        tr.token_ids.length = 2 ∧ ∀ r ∈ tr.token_ids, r.length = 8) := by
  constructor
  · intro d model inputs max_length stop_token_ids strip_prompt tr hne h
    simp only [Model_generate] at h
    rcases hrun : stepLoop model stop_token_ids
        (generateStepsOf (paddedInputs d inputs).padding_mask max_length).toNat
        (initLoopState (paddedInputs d inputs) inputs.token_ids.length) with e | st
    · rw [hrun] at h
      exact Except.noConfusion h
    · rw [hrun] at h
      injection h with h5
      subst h5
      refine ⟨?_, ?_, ?_⟩
      · show initialNumTokens (paddedInputs d inputs).padding_mask = _
        rw [initialNumTokens_padded d inputs hne]
        rfl
      · show generateStepsOf (paddedInputs d inputs).padding_mask max_length = _
        dsimp only
        unfold generateStepsOf
        rw [seqLen_padded d inputs hne, initialNumTokens_padded d inputs hne]
        rfl
      · intro hle
        have h0 : (generateStepsOf (paddedInputs d inputs).padding_mask
            max_length).toNat = 0 := Int.toNat_of_nonpos hle
        rw [h0] at hrun
        simp only [stepLoop] at hrun
        injection hrun with h6
        rw [← h6]
        rfl
  · intro model hm t0 t1 h0 h1
    obtain ⟨tr, e1, e2, e3, e4, e5, e6⟩ :=
      Model_generate_noStop 1 model
        ⟨[t0, t1], [[1, 1, 1, 0, 0, 0, 0, 0], [1, 1, 1, 0, 0, 0, 0, 0]]⟩
        8 false 8 hm (by simp)
        (by
          intro r hr
          simp only [List.mem_cons, List.not_mem_nil, or_false] at hr
          rcases hr with rfl | rfl <;> assumption)
    have v2 : tr.numTokens0 = 3 := by rw [e2]; rfl
    have v3 : tr.generate_steps = 5 := by rw [e3]; rfl
    have v4 : tr.stepsRun = 5 := by rw [e4, v3]; rfl
    have v5 : tr.num_tokens_final = 8 := by rw [e5, v2, v3]; rfl
    obtain ⟨w1, w2⟩ := e6 rfl
    refine ⟨tr, e1, v2, v3, v4, w1, ?_⟩
    intro r hr
    rw [w2 r hr, v5]
    rfl

/-- C2 witness: both parts instantiated on a concrete two-row batch with a
model that always predicts token 1. -/
theorem generate_steps_formula_witness :
    (∃ tr, Model_generate 1
        (fun x => x.token_ids.map (fun _ => List.replicate 8 [0, 1]))
        ⟨[List.replicate 8 9, List.replicate 8 9],
         [[1, 1, 1, 0, 0, 0, 0, 0], [1, 1, 1, 0, 0, 0, 0, 0]]⟩ 8 [] false =
          .ok tr ∧
      tr.numTokens0 =
        (([[1, 1, 1, 0, 0, 0, 0, 0], [1, 1, 1, 0, 0, 0, 0, 0]] :
          List (List Int)).headD []).countP (fun v => v == 1) ∧
      tr.generate_steps = 5) ∧
    (∃ tr, Model_generate 1
        (fun x => x.token_ids.map (fun _ => List.replicate 8 [0, 1]))
        ⟨[List.replicate 8 9, List.replicate 8 9],
         [[1, 1, 1, 0, 0, 0, 0, 0], [1, 1, 1, 0, 0, 0, 0, 0]]⟩ 8 [] false =
          .ok tr ∧
      tr.numTokens0 = 3 ∧ tr.generate_steps = 5 ∧ tr.stepsRun = 5 ∧
      tr.token_ids.length = 2 ∧ ∀ r ∈ tr.token_ids, r.length = 8) := by
  constructor
  · rcases hres : Model_generate 1
        (fun x => x.token_ids.map (fun _ => List.replicate 8 [0, 1]))
        ⟨[List.replicate 8 9, List.replicate 8 9],
         [[1, 1, 1, 0, 0, 0, 0, 0], [1, 1, 1, 0, 0, 0, 0, 0]]⟩ 8 [] false
        with e | tr
    · cases e
      exact absurd hres (by decide)
    · obtain ⟨q1, q2, q3⟩ := generate_steps_formula.1 1
        (fun x => x.token_ids.map (fun _ => List.replicate 8 [0, 1]))
        ⟨[List.replicate 8 9, List.replicate 8 9],
         [[1, 1, 1, 0, 0, 0, 0, 0], [1, 1, 1, 0, 0, 0, 0, 0]]⟩ 8 [] false tr
        (by decide) hres
      refine ⟨tr, rfl, q1, ?_⟩
      rw [q2, q1]
      decide
  · exact generate_steps_formula.2
      (fun x => x.token_ids.map (fun _ => List.replicate 8 [0, 1]))
      (by intro x; simp)
      (List.replicate 8 9) (List.replicate 8 9) (by decide) (by decide)

/-- C7: when the batch size is not a multiple of the data-parallel shard
count, the batch is padded along axis 0 with zero-valued rows up to the next
multiple of that count before the loop runs, and every successful call's
returned arrays are sliced back to the original batch size. -/
theorem batch_padding_behavior :
    (∀ (d : Nat) (inputs : GenInputs), 0 < d →
      inputs.token_ids.length % d ≠ 0 →
      (paddedInputs d inputs).token_ids.take inputs.token_ids.length =
        inputs.token_ids ∧
      (paddedInputs d inputs).token_ids.length =
        inputs.token_ids.length + (d - inputs.token_ids.length % d) ∧
      (paddedInputs d inputs).token_ids.length % d = 0 ∧
      (paddedInputs d inputs).token_ids.length - inputs.token_ids.length < d ∧
      (∀ r ∈ (paddedInputs d inputs).token_ids.drop inputs.token_ids.length,
        ∀ v ∈ r, v = 0)) ∧
    (∀ (d L : Nat) (model : GenInputs → List (List (List Int)))
        (inputs : GenInputs) (max_length : Int) (stop_token_ids : List Int)
        (strip_prompt : Bool) (tr : GenTrace),
      (∀ x, (model x).length = x.token_ids.length) →
      inputs.token_ids ≠ [] →
      (∀ r ∈ inputs.token_ids, r.length = L) →
      inputs.padding_mask.length = inputs.token_ids.length →
      Model_generate d model inputs max_length stop_token_ids strip_prompt =
        .ok tr →
      tr.token_ids.length = inputs.token_ids.length ∧
      tr.padding_mask.length = inputs.token_ids.length) := by
  constructor
  · intro d inputs hd hb
    have hmlt : inputs.token_ids.length % d < d := Nat.mod_lt _ hd
    have hdm := Nat.div_add_mod inputs.token_ids.length d
    have hlen := paddedInputs_token_length d inputs
    rw [if_neg hb] at hlen
    refine ⟨paddedInputs_token_take d inputs, hlen, ?_, by omega,
            paddedInputs_token_drop_zero d inputs⟩
    have hexp : d * (inputs.token_ids.length / d + 1) =
        d * (inputs.token_ids.length / d) + d := by ring
    have hmul : inputs.token_ids.length + (d - inputs.token_ids.length % d) =
        d * (inputs.token_ids.length / d + 1) := by
      rw [hexp]
      omega
    rw [hlen, hmul, Nat.mul_mod_right]
  · intro d L model inputs max_length stop_token_ids strip_prompt tr
      hm hb hrows hmask h
    obtain ⟨q1, q2, _, _⟩ := Model_generate_ok_facts d model inputs max_length
      stop_token_ids strip_prompt L tr hm hb hrows hmask h
    exact ⟨q1, q2⟩

/-- C7 witness: batch size 5 with shard count 4 pads to 8 zero-padded rows,
and a concrete successful call returns 5 rows. -/
theorem batch_padding_behavior_witness :
    ((paddedInputs 4 ⟨[[9, 0], [9, 0], [9, 0], [9, 0], [9, 0]],
        [[1, 0], [1, 0], [1, 0], [1, 0], [1, 0]]⟩).token_ids.length = 5 + (4 - 5 % 4) ∧
      (paddedInputs 4 ⟨[[9, 0], [9, 0], [9, 0], [9, 0], [9, 0]],
        [[1, 0], [1, 0], [1, 0], [1, 0], [1, 0]]⟩).token_ids.length % 4 = 0) ∧
    (∃ tr, Model_generate 4
        (fun x => x.token_ids.map (fun _ => [[0, 1], [0, 1]]))
        ⟨[[9, 0], [9, 0], [9, 0], [9, 0], [9, 0]],
         [[1, 0], [1, 0], [1, 0], [1, 0], [1, 0]]⟩ 2 [] false = .ok tr ∧
      tr.token_ids.length = 5 ∧ tr.padding_mask.length = 5) := by
  constructor
  · have q := (batch_padding_behavior.1 4
      ⟨[[9, 0], [9, 0], [9, 0], [9, 0], [9, 0]],
       [[1, 0], [1, 0], [1, 0], [1, 0], [1, 0]]⟩ (by decide) (by decide))
    exact ⟨q.2.1, q.2.2.1⟩
  · rcases hres : Model_generate 4
        (fun x => x.token_ids.map (fun _ => [[0, 1], [0, 1]]))
        ⟨[[9, 0], [9, 0], [9, 0], [9, 0], [9, 0]],
         [[1, 0], [1, 0], [1, 0], [1, 0], [1, 0]]⟩ 2 [] false with e | tr
    · cases e
      exact absurd hres (by decide)
    · obtain ⟨q1, q2⟩ := batch_padding_behavior.2 4 2
        (fun x => x.token_ids.map (fun _ => [[0, 1], [0, 1]]))
        ⟨[[9, 0], [9, 0], [9, 0], [9, 0], [9, 0]],
         [[1, 0], [1, 0], [1, 0], [1, 0], [1, 0]]⟩ 2 [] false tr
        (by intro x; simp) (by decide) (by decide) (by decide) hres
      exact ⟨tr, rfl, q1, q2⟩

/-- C8 counterexample: on a concrete call the token array held by the
caller's `inputs` dictionary at return differs from the one supplied — the
token buffer is the caller's array mutated in place, not a fresh per-call
buffer. -/
theorem inputs_mutation_counterexample :
    ((Model_generate 1
        (fun x => x.token_ids.map
          (fun _ => List.replicate 4 [0, 0, 0, 0, 0, 0, 0, 9]))
        ⟨[[5, 6, 0, 0]], [[1, 1, 0, 0]]⟩ 4 [] false).map
      (fun tr => tr.finalInputs.token_ids) = .ok [[5, 6, 7, 7]]) ∧
    ([[5, 6, 7, 7]] : List (List Int)) ≠ [[5, 6, 0, 0]] := by
  decide

/-- C8 (amended): the segment-id buffer is rebuilt fresh each step, so the
mask array the caller's dictionary holds on return is exactly the padded
original, never written by the loop; the token entry aliases the in-place
mutated buffer, but its entries strictly below the initial cursor still
agree with the padded original — only positions at or beyond the cursor are
overwritten. -/
theorem inputs_aliasing_amended (d L : Nat)
    (model : GenInputs → List (List (List Int))) (inputs : GenInputs)
    (max_length : Int) (stop_token_ids : List Int) (strip_prompt : Bool)
    (tr : GenTrace)
    (hm : ∀ x, (model x).length = x.token_ids.length)
    (hb : inputs.token_ids ≠ [])
    (hrows : ∀ r ∈ inputs.token_ids, r.length = L)
    (hmask : inputs.padding_mask.length = inputs.token_ids.length)
    (h : Model_generate d model inputs max_length stop_token_ids strip_prompt =
      .ok tr) :
    tr.finalInputs.padding_mask = (paddedInputs d inputs).padding_mask ∧
    ∀ j, (tr.finalInputs.token_ids.getD j []).take tr.numTokens0 =
      ((paddedInputs d inputs).token_ids.getD j []).take tr.numTokens0 :=
  ⟨(Model_generate_ok_facts d model inputs max_length stop_token_ids
      strip_prompt L tr hm hb hrows hmask h).2.2.1,
   (Model_generate_ok_facts d model inputs max_length stop_token_ids
      strip_prompt L tr hm hb hrows hmask h).2.2.2⟩

/-- C8 witness: the amended aliasing facts on a concrete run (the prompt
prefix `[8, 2]` survives in the mutated buffer, the mask entry is the
original). -/
theorem inputs_aliasing_amended_witness :
    ∃ tr, Model_generate 1
        (fun x => x.token_ids.map
          (fun _ => List.replicate 4 [0, 0, 0, 0, 0, 0, 0, 9]))
        ⟨[[8, 2, 0, 0]], [[1, 1, 0, 0]]⟩ 4 [] false = .ok tr ∧
      tr.finalInputs.padding_mask =
        (paddedInputs 1 ⟨[[8, 2, 0, 0]], [[1, 1, 0, 0]]⟩).padding_mask ∧
      (tr.finalInputs.token_ids.getD 0 []).take tr.numTokens0 =
        ((paddedInputs 1 ⟨[[8, 2, 0, 0]], [[1, 1, 0, 0]]⟩).token_ids.getD 0 []).take
          tr.numTokens0 := by
  rcases hres : Model_generate 1
      (fun x => x.token_ids.map
        (fun _ => List.replicate 4 [0, 0, 0, 0, 0, 0, 0, 9]))
      ⟨[[8, 2, 0, 0]], [[1, 1, 0, 0]]⟩ 4 [] false with e | tr
  · cases e
    exact absurd hres (by decide)
  · obtain ⟨q1, q2⟩ := inputs_aliasing_amended 1 4
      (fun x => x.token_ids.map
        (fun _ => List.replicate 4 [0, 0, 0, 0, 0, 0, 0, 9]))
      ⟨[[8, 2, 0, 0]], [[1, 1, 0, 0]]⟩ 4 [] false tr
      (by intro x; simp) (by decide) (by decide) (by decide) hres
    exact ⟨tr, rfl, q1, q2 0⟩

/-- C1: the `strip_prompt=True` return path slices the TOKEN array for the
returned `padding_mask` (model.py line 229), not the segment-id mask the
docstring and spec describe: on a concrete run the returned mask equals the
token slice `[[7, 7]]` while the final segment-id mask sliced to the same
positions is `[[1, 1]]`. The `token_ids` entry is, as claimed, the tokens
sliced to the original batch and the most recent `generate_steps`
positions. -/
theorem strip_prompt_mask_bug :
    ((Model_generate 1
        (fun x => x.token_ids.map
          (fun _ => List.replicate 4 [0, 0, 0, 0, 0, 0, 0, 9]))
        ⟨[[4, 6, 0, 0]], [[1, 1, 0, 0]]⟩ 4 [] true).map
      (fun tr => tr.token_ids) = .ok [[7, 7]]) ∧
    ((Model_generate 1
        (fun x => x.token_ids.map
          (fun _ => List.replicate 4 [0, 0, 0, 0, 0, 0, 0, 9]))
        ⟨[[4, 6, 0, 0]], [[1, 1, 0, 0]]⟩ 4 [] true).map
      (fun tr => tr.padding_mask) = .ok [[7, 7]]) ∧
    ((Model_generate 1
        (fun x => x.token_ids.map
          (fun _ => List.replicate 4 [0, 0, 0, 0, 0, 0, 0, 9]))
        ⟨[[4, 6, 0, 0]], [[1, 1, 0, 0]]⟩ 4 [] true).map
      (fun tr => (tr.final_segment_ids.take 1).map (fun r => pySlice r 2 4)) =
        .ok [[1, 1]]) ∧
    (([[7, 7]] : List (List Int)) ≠ [[1, 1]]) := by
  decide

/-- C10: a generate call whose batch size 5 is not a multiple of the shard
count 4, with a model whose argmax token on every (padded) row is the stop
token 2, raises the out-of-range `IndexError`: `reached_eos` has 5 entries
while the EOS check enumerates the 8 padded predictions. -/
theorem padded_batch_eos_index_error :
    (5 % 4 ≠ 0) ∧
    (argmax [0, 0, 1] = 2 ∧ (2 : Int) ∈ ([2] : List Int)) ∧
    Model_generate 4
      (fun x => x.token_ids.map (fun _ => [[0, 0, 1], [0, 0, 1]]))
      ⟨[[9, 0], [9, 0], [9, 0], [9, 0], [9, 0]],
       [[1, 0], [1, 0], [1, 0], [1, 0], [1, 0]]⟩ 2 [2] false =
      .error .indexError := by
  decide
